import Mathlib

/-!
# Verification of the energy-hub model-construction engine

Shallow embedding of the model-construction code of the
Key-Infrastructure-North-Sea repository:

* `src/model_construction/construct_technology.py` — the per-technology
  submodel builder `init_technology_block` (parameters, decision variables,
  cost constraints, archetype dispatch);
* `src/energyhub.py` — the orchestrator's global-set construction
  (`tec_node` and the per-node technology sets).

Numeric data is embedded as `ℚ`; Python exceptions are embedded as
`Except`-valued results; the process-wide mutable `m_config.presolve`
state is threaded explicitly as a state value.
-/

namespace EnergyHub

/-- A size bound from the technology-data bundle: `size_min` / `size_max` may
be a single number (Python: `isinstance(x, numbers.Number)` holds) or a
numeric collection handed to Python's built-in `min` / `max`. -/
inductive SizeBound where
  | scalar (x : ℚ)
  | collection (xs : List ℚ)
deriving DecidableEq

/-- The `Economics` entry of a technology's data bundle. -/
structure Economics where
  CAPEX_model : ℕ
  unit_CAPEX_annual : ℚ
  OPEX_variable : ℚ
  OPEX_fixed : ℚ
deriving DecidableEq

/-- The `TechnologyPerf` entry of a technology's data bundle. -/
structure TechnologyPerf where
  tec_type : String
  size_is_int : Bool
  size_min : SizeBound
  size_max : SizeBound
  input_carrier : List String
  output_carrier : List String
deriving DecidableEq

/-- The data bundle `data.technology_data[nodename][tec]` for one technology:
the `TechnologyPerf` dict (field `perf`) and the `Economics` dict (field
`econ`). -/
structure TecData where
  perf : TechnologyPerf
  econ : Economics
deriving DecidableEq

/-- The part of the global model skeleton the technology builder reads:
`model.set_t = RangeSet(1, T)`, embedded by its length `T`. -/
structure EHModel where
  set_t : ℕ
deriving DecidableEq

/-- The process-wide mutable configuration `m_config.presolve`
(module `src/config_model.py`), threaded through construction as state. -/
structure MConfig where
  big_m_transformation_required : ℕ
deriving DecidableEq

/-- Python exceptions the builder can raise. -/
inductive BuildError where
  | nameError (name : String)
  | valueError (msg : String)
deriving DecidableEq

/-- Bounds `(lb, ub)` of a Pyomo decision variable. -/
structure VarBounds where
  lb : ℚ
  ub : ℚ
deriving DecidableEq

/-- Tags for the constraint components attached to a technology block.
`CAPEX_linear` is `b_tec.const_CAPEX` from the linear branch
(`var_size * para_unit_CAPEX == var_CAPEX`); `CAPEX_piecewise` is the
`Piecewise` component of the piecewise branch; `OPEX_fixed` and
`OPEX_variable` are `b_tec.const_OPEX_fixed` / `b_tec.const_OPEX_variable`;
the `arch_*` tags stand for the archetype constraint families added by
`constraints_tec_RES` / `..._CONV1` / `..._CONV2` / `..._CONV3` /
`..._STOR` of the archetype library module. -/
inductive ConstraintTag where
  | CAPEX_linear
  | CAPEX_piecewise
  | OPEX_fixed
  | OPEX_variable
  | arch_RES
  | arch_CONV1
  | arch_CONV2
  | arch_CONV3
  | arch_STOR
deriving DecidableEq

/-- A built technology block `b_tec`: resolved parameters, carrier sets,
decision-variable bounds (`var_input = none` when no input variable is
declared at all), the horizon `set_t` indexing the time-dependent variables
and constraints, and the list of attached constraint components. -/
structure TecBlock where
  para_size_min : ℚ
  para_size_max : ℚ
  para_output_max : ℚ
  para_unit_CAPEX : ℚ
  para_OPEX_variable : ℚ
  para_OPEX_fixed : ℚ
  set_input_carriers : List String
  set_output_carriers : List String
  var_input : Option VarBounds
  var_output : VarBounds
  var_size : VarBounds
  size_is_integer : Bool
  set_t : ℕ
  constraints : List ConstraintTag
deriving DecidableEq

/-- An assignment of values to a technology block's decision variables
(what a solver would return), used to state the meaning of the emitted
constraint expressions. -/
structure TecAssign where
  var_size : ℚ
  var_input : ℕ → String → ℚ
  var_output : ℕ → String → ℚ
  var_CAPEX : ℚ
  var_OPEX_variable : ℕ → ℚ
  var_OPEX_fixed : ℚ

/-- Python's built-in `min` on a list of numbers: raises `ValueError` on an
empty sequence, otherwise folds binary `min` over the elements. -/
def py_min : List ℚ → Except BuildError ℚ
  | [] => .error (.valueError "min() arg is an empty sequence")
  | x :: xs => .ok (xs.foldl min x)

/-- Python's built-in `max` on a list of numbers: raises `ValueError` on an
empty sequence, otherwise folds binary `max` over the elements. -/
def py_max : List ℚ → Except BuildError ℚ
  | [] => .error (.valueError "max() arg is an empty sequence")
  | x :: xs => .ok (xs.foldl max x)

/-- Source lines 81-85: a scalar `size_min` is used as-is, any other value
is passed to `min`. -/
def resolve_size_min : SizeBound → Except BuildError ℚ
  | .scalar x => .ok x
  | .collection xs => py_min xs

/-- Source lines 86-89: a scalar `size_max` is used as-is, any other value
is passed to `max`. -/
def resolve_size_max : SizeBound → Except BuildError ℚ
  | .scalar x => .ok x
  | .collection xs => py_max xs

/-- Modelled from the spec: the `Piecewise` component built in the
`capex_model == 2` branch from the breakpoint arrays `bp_x` / `bp_y`
(`pw_pts=bp_x`, `f_rule=bp_y`). The arrays are not assigned in
`construct_technology.py`; their only possible origin is the star-imported
archetype library module, which is not under src/. The spec treats them as
an incomplete external dependency supplied from outside the shown code
(§9) and describes the branch as enforcing an exact piecewise-linear CAPEX
constraint (§4.4); accordingly only the presence of the component is
modelled here — the breakpoint values stay external. -/
def piecewise_capex : List ConstraintTag :=
  [ConstraintTag.CAPEX_piecewise]

/-- The archetype dispatch chain at the end of `init_technology_block`
(source lines 165-180): five `if`/`elif` branches on `tec_type`, with no
`else` branch — an unrecognized tag adds nothing. -/
def arch_dispatch (tec_type : String) : List ConstraintTag :=
  if tec_type = "RES" then [.arch_RES]
  else if tec_type = "CONV1" then [.arch_CONV1]
  else if tec_type = "CONV2" then [.arch_CONV2]
  else if tec_type = "CONV3" then [.arch_CONV3]
  else if tec_type = "STOR" then [.arch_STOR]
  else []

/-- The block assembled by `init_technology_block` once the size parameters
have been resolved to `size_min` / `size_max`; `capex` is the CAPEX
constraint component contributed by the cost-model branch. The input
variable (declared only when `tec_type` is not `RES`) gets
`bounds=(b_tec.para_size_min, b_tec.para_size_max)`; the output variable
gets `bounds=(0, b_tec.para_output_max)` with `para_output_max = size_max`;
the size variable gets `bounds=(para_size_min, para_size_max)`. -/
def make_tec_block (td : TecData) (mdl : EHModel) (size_min size_max : ℚ)
    (capex : List ConstraintTag) : TecBlock :=
  { para_size_min := size_min
    para_size_max := size_max
    para_output_max := size_max
    para_unit_CAPEX := td.econ.unit_CAPEX_annual
    para_OPEX_variable := td.econ.OPEX_variable
    para_OPEX_fixed := td.econ.OPEX_fixed
    set_input_carriers := td.perf.input_carrier
    set_output_carriers := td.perf.output_carrier
    var_input := if td.perf.tec_type = "RES" then none
                 else some ⟨size_min, size_max⟩
    var_output := ⟨0, size_max⟩
    var_size := ⟨size_min, size_max⟩
    size_is_integer := td.perf.size_is_int
    set_t := mdl.set_t
    constraints := capex ++ [.OPEX_fixed, .OPEX_variable]
                     ++ arch_dispatch td.perf.tec_type }

/-- Shallow embedding of `init_technology_block`
(`src/model_construction/construct_technology.py`). In source order:
resolve `size_min` / `size_max` (Python `min`/`max` raise `ValueError` on an
empty sequence); construct the size `Param`s, whose
`domain=NonNegativeReals` rejects a negative value; declare the carrier
sets and the decision variables; branch on `capex_model` — the linear
branch adds `const_CAPEX`, the piecewise branch sets the global
`m_config.presolve.big_m_transformation_required = 1` and then builds the
`Piecewise` component (see `piecewise_capex` for how its externally
supplied breakpoints are treated), and any other value adds no CAPEX
constraint at all (the `if`/`elif` chain has no `else`); add the OPEX
constraints; dispatch on the archetype tag. The returned pair is the final
`m_config.presolve` state together with the built block or the raised
exception. -/
def init_technology_block (cfg : MConfig) (mdl : EHModel) (td : TecData) :
    MConfig × Except BuildError TecBlock :=
  match resolve_size_min td.perf.size_min with
  | .error e => (cfg, .error e)
  | .ok size_min =>
    match resolve_size_max td.perf.size_max with
    | .error e => (cfg, .error e)
    | .ok size_max =>
      if size_min < 0 then
        (cfg, .error (.valueError "para_size_min: value not in domain NonNegativeReals"))
      else if size_max < 0 then
        (cfg, .error (.valueError "para_size_max: value not in domain NonNegativeReals"))
      else if td.econ.CAPEX_model = 1 then
        (cfg, .ok (make_tec_block td mdl size_min size_max [.CAPEX_linear]))
      else if td.econ.CAPEX_model = 2 then
        ({ cfg with big_m_transformation_required := 1 },
         .ok (make_tec_block td mdl size_min size_max piecewise_capex))
      else
        (cfg, .ok (make_tec_block td mdl size_min size_max []))

/-- `add_technologies` at hub level for one node: Pyomo builds
`b_node.tech_blocks` by running `init_technology_block` once per technology
in order, aborting on the first exception; the `m_config.presolve` state
persists across the calls (and across the abort). -/
def add_technologies (cfg : MConfig) (mdl : EHModel) :
    List TecData → MConfig × Except BuildError (List TecBlock)
  | [] => (cfg, .ok [])
  | td :: rest =>
    match init_technology_block cfg mdl td with
    | (cfg2, .error e) => (cfg2, .error e)
    | (cfg2, .ok b) =>
      match add_technologies cfg2 mdl rest with
      | (cfg3, .error e) => (cfg3, .error e)
      | (cfg3, .ok bs) => (cfg3, .ok (b :: bs))

/-- The body of the rule `init_OPEX_variable` (source lines 147-149) at time
step `t`: `sum(b_tec.var_output[t, car] for car in b_tec.set_output_carriers)
* b_tec.para_OPEX_variable == b_tec.var_OPEX_variable[t]`. -/
def init_OPEX_variable (b : TecBlock) (a : TecAssign) (t : ℕ) : Prop :=
  (b.set_output_carriers.map fun car => a.var_output t car).sum
      * b.para_OPEX_variable
    = a.var_OPEX_variable t

/-- The variable-OPEX equation as the spec words it: `OPEX_variable[t]`
equals the sum of `output[t, c]` over all of the technology's declared
output carriers `c`, times the variable OPEX rate. -/
def spec_OPEX_variable_eq (b : TecBlock) (a : TecAssign) (t : ℕ) : Prop :=
  a.var_OPEX_variable t
    = (b.set_output_carriers.map fun car => a.var_output t car).sum
        * b.para_OPEX_variable

/-- The expression of the linear CAPEX constraint (source line 134):
`b_tec.var_size * b_tec.para_unit_CAPEX == b_tec.var_CAPEX`. -/
def const_CAPEX_linear (b : TecBlock) (a : TecAssign) : Prop :=
  a.var_size * b.para_unit_CAPEX = a.var_CAPEX

/-- A component of the input variable exists for index `(t, car)` exactly
when the variable was declared at all and `(t, car)` lies in the indexing
sets `(model.set_t, b_tec.set_input_carriers)`. -/
def input_var_exists (b : TecBlock) (t : ℕ) (car : String) : Prop :=
  b.var_input ≠ none ∧ 1 ≤ t ∧ t ≤ b.set_t ∧ car ∈ b.set_input_carriers

/-- A component of the output variable exists for index `(t, car)` exactly
when `(t, car)` lies in `(model.set_t, b_tec.set_output_carriers)`. -/
def output_var_exists (b : TecBlock) (t : ℕ) (car : String) : Prop :=
  1 ≤ t ∧ t ≤ b.set_t ∧ car ∈ b.set_output_carriers

/-- `m` is a lower bound of every element of `xs` (computable form). -/
def is_lower_bound (m : ℚ) (xs : List ℚ) : Bool :=
  xs.all fun y => decide (m ≤ y)

/-- `m` is an upper bound of every element of `xs` (computable form). -/
def is_upper_bound (m : ℚ) (xs : List ℚ) : Bool :=
  xs.all fun y => decide (y ≤ m)

/-- The archetype tags recognized by the dispatch chain. -/
def known_archetype (s : String) : Bool :=
  s == "RES" || s == "CONV1" || s == "CONV2" || s == "CONV3" || s == "STOR"

/-- Both size parameters of a technology resolve without a Python exception:
`min`/`max` succeed and the resolved values pass the `NonNegativeReals`
domain check of the size `Param`s. -/
def size_params_ok (td : TecData) : Bool :=
  match resolve_size_min td.perf.size_min, resolve_size_max td.perf.size_max with
  | .ok a, .ok b => decide (0 ≤ a) && decide (0 ≤ b)
  | _, _ => false

/-- Some technology of the hub uses the piecewise-linear cost model. -/
def any_piecewise (tds : List TecData) : Bool :=
  tds.any fun td => td.econ.CAPEX_model == 2

/-- Every technology of the hub uses the linear cost model. -/
def all_linear (tds : List TecData) : Bool :=
  tds.all fun td => td.econ.CAPEX_model == 1

/-! ## Global-set construction (`src/energyhub.py`) -/

/-- Python exceptions during global-set construction. -/
inductive SetError where
  | keyError (node : String)
deriving DecidableEq

/-- Python dict lookup `sets['technologies'][node]` on the per-node
technology mapping, embedded as an association list: `none` means the
lookup raises `KeyError`. -/
def dict_get (m : List (String × List String)) (k : String) :
    Option (List String) :=
  (m.find? fun p => decide (p.fst = k)).map Prod.snd

/-- Shallow embedding of `tec_node` (`energyhub.__init__`, lines 40-47):
for a node of `set_nodes`, look its technology list up in the mapping; a
`KeyError` is caught, printed and re-raised; a node outside `set_nodes`
falls through and returns Python `None`. -/
def tec_node (nodes : List String) (technologies : List (String × List String))
    (node : String) : Except SetError (Option (List String)) :=
  if node ∈ nodes then
    match dict_get technologies node with
    | some tecs => .ok (some tecs)
    | none => .error (.keyError node)
  else
    .ok none

/-- Pyomo's construction of `Set(self.model.set_nodes, ...)` with rule
`tec_node`: the rule runs once per node of `set_nodes` (the `rest`
argument), in order, and the first exception aborts construction. -/
def build_tec_sets (allNodes : List String)
    (technologies : List (String × List String)) :
    List String → Except SetError (List (String × Option (List String)))
  | [] => .ok []
  | n :: rest =>
    match tec_node allNodes technologies n with
    | .error e => .error e
    | .ok v =>
      match build_tec_sets allNodes technologies rest with
      | .error e => .error e
      | .ok tl => .ok ((n, v) :: tl)

/-- `self.model.set_technologies = Set(self.model.set_nodes,
...)` with rule `tec_node`: build the indexed technology sets over the full
node list. -/
def build_set_technologies (nodes : List String)
    (technologies : List (String × List String)) :
    Except SetError (List (String × Option (List String))) :=
  build_tec_sets nodes technologies nodes

/-- The first node of the global node list whose mapping lookup raises
`KeyError`. -/
def first_missing (nodes : List String)
    (technologies : List (String × List String)) : Option String :=
  nodes.find? fun n => (dict_get technologies n).isNone

/-! ## Concrete technology data, used to evaluate the embedding -/

/-- The initial process-wide configuration: the big-M flag unset. -/
def cfg0 : MConfig := { big_m_transformation_required := 0 }

/-- A two-step operational horizon. -/
def mdl2 : EHModel := { set_t := 2 }

/-- A conversion technology with a strictly positive scalar `size_min`. -/
def td_c1 : TecData :=
  { perf := { tec_type := "CONV1", size_is_int := false,
              size_min := .scalar 2, size_max := .scalar 10,
              input_carrier := ["gas"], output_carrier := ["electricity"] },
    econ := { CAPEX_model := 1, unit_CAPEX_annual := 100,
              OPEX_variable := 1, OPEX_fixed := 1/20 } }

/-- The block built for `td_c1` over a two-step horizon. -/
def c1_block : TecBlock :=
  make_tec_block td_c1 mdl2 2 10 [ConstraintTag.CAPEX_linear]

/-- A technology whose `size_min` collection resolves above its `size_max`
collection. -/
def td_c2 : TecData :=
  { perf := { tec_type := "CONV1", size_is_int := false,
              size_min := .collection [5], size_max := .collection [3],
              input_carrier := ["gas"], output_carrier := ["electricity"] },
    econ := { CAPEX_model := 1, unit_CAPEX_annual := 100,
              OPEX_variable := 1, OPEX_fixed := 1/20 } }

/-- A technology with multi-element bound collections. -/
def td_c2w : TecData :=
  { perf := { tec_type := "CONV2", size_is_int := false,
              size_min := .collection [4, 2, 7],
              size_max := .collection [1, 9, 3],
              input_carrier := ["gas"], output_carrier := ["electricity"] },
    econ := { CAPEX_model := 1, unit_CAPEX_annual := 50,
              OPEX_variable := 2, OPEX_fixed := 1/10 } }

/-- The block built for `td_c2w` over a two-step horizon. -/
def c2w_block : TecBlock :=
  make_tec_block td_c2w mdl2 2 9 [ConstraintTag.CAPEX_linear]

/-- A technology whose cost-model selector is neither 1 nor 2. -/
def td_c3 : TecData :=
  { perf := { tec_type := "STOR", size_is_int := false,
              size_min := .scalar 0, size_max := .scalar 8,
              input_carrier := ["electricity"], output_carrier := ["electricity"] },
    econ := { CAPEX_model := 3, unit_CAPEX_annual := 40,
              OPEX_variable := 0, OPEX_fixed := 1/25 } }

/-- A storage technology with the linear cost model. -/
def td_c3w : TecData :=
  { perf := { tec_type := "CONV3", size_is_int := false,
              size_min := .scalar 1, size_max := .scalar 6,
              input_carrier := ["gas"], output_carrier := ["electricity", "heat"] },
    econ := { CAPEX_model := 1, unit_CAPEX_annual := 80,
              OPEX_variable := 3, OPEX_fixed := 1/50 } }

/-- The block built for `td_c3w` over a two-step horizon. -/
def c3w_block : TecBlock :=
  make_tec_block td_c3w mdl2 1 6 [ConstraintTag.CAPEX_linear]

/-- A two-output conversion technology. -/
def td_c4 : TecData :=
  { perf := { tec_type := "CONV2", size_is_int := false,
              size_min := .scalar 0, size_max := .scalar 10,
              input_carrier := ["gas"], output_carrier := ["electricity", "heat"] },
    econ := { CAPEX_model := 1, unit_CAPEX_annual := 60,
              OPEX_variable := 2, OPEX_fixed := 1/10 } }

/-- The block built for `td_c4` over a two-step horizon. -/
def c4w_block : TecBlock :=
  make_tec_block td_c4 mdl2 0 10 [ConstraintTag.CAPEX_linear]

/-- A concrete assignment to the decision variables of a technology block. -/
def a_c4 : TecAssign :=
  { var_size := 5
    var_input := fun _ _ => 1
    var_output := fun _ _ => 3
    var_CAPEX := 300
    var_OPEX_variable := fun _ => 12
    var_OPEX_fixed := 30 }

/-- A technology with the piecewise-linear cost model. -/
def td_c6a : TecData :=
  { perf := { tec_type := "CONV1", size_is_int := false,
              size_min := .scalar 1, size_max := .scalar 4,
              input_carrier := ["gas"], output_carrier := ["electricity"] },
    econ := { CAPEX_model := 2, unit_CAPEX_annual := 100,
              OPEX_variable := 1, OPEX_fixed := 1/20 } }

/-- A technology with the linear cost model. -/
def td_c6b : TecData :=
  { perf := { tec_type := "RES", size_is_int := false,
              size_min := .scalar 0, size_max := .scalar 12,
              input_carrier := [], output_carrier := ["electricity"] },
    econ := { CAPEX_model := 1, unit_CAPEX_annual := 70,
              OPEX_variable := 0, OPEX_fixed := 1/30 } }

/-- A two-input conversion technology. -/
def td_c7 : TecData :=
  { perf := { tec_type := "CONV1", size_is_int := false,
              size_min := .scalar 0, size_max := .scalar 10,
              input_carrier := ["gas", "hydrogen"],
              output_carrier := ["electricity"] },
    econ := { CAPEX_model := 1, unit_CAPEX_annual := 90,
              OPEX_variable := 1, OPEX_fixed := 1/20 } }

/-- The block built for `td_c7` over a two-step horizon. -/
def c7w_block : TecBlock :=
  make_tec_block td_c7 mdl2 0 10 [ConstraintTag.CAPEX_linear]

/-- A technology whose archetype tag matches none of the known archetypes. -/
def td_c8 : TecData :=
  { perf := { tec_type := "FUSION", size_is_int := false,
              size_min := .scalar 0, size_max := .scalar 10,
              input_carrier := ["hydrogen"], output_carrier := ["electricity"] },
    econ := { CAPEX_model := 1, unit_CAPEX_annual := 500,
              OPEX_variable := 1, OPEX_fixed := 1/20 } }

/-- A technology with crossing resolved bounds: `size_min = 5 > 3 = size_max`. -/
def td_c9 : TecData :=
  { perf := { tec_type := "CONV1", size_is_int := false,
              size_min := .scalar 5, size_max := .scalar 3,
              input_carrier := ["gas"], output_carrier := ["electricity"] },
    econ := { CAPEX_model := 1, unit_CAPEX_annual := 100,
              OPEX_variable := 1, OPEX_fixed := 1/20 } }

/-! ## Helper lemmas -/

/-! ## Helper lemmas -/

theorem foldl_min_le_self (xs : List ℚ) (x : ℚ) : xs.foldl min x ≤ x := by
  induction xs generalizing x with
  | nil => exact le_refl x
  | cons y ys ih =>
    exact le_trans (ih (min x y)) (min_le_left x y)

theorem foldl_min_le_of_mem (xs : List ℚ) (x y : ℚ) (hy : y ∈ xs) :
    xs.foldl min x ≤ y := by
  induction xs generalizing x with
  | nil => cases hy
  | cons z zs ih =>
    rcases List.mem_cons.mp hy with h | h
    · subst h
      exact le_trans (foldl_min_le_self zs (min x y)) (min_le_right x y)
    · exact ih (min x z) h

theorem foldl_min_mem (xs : List ℚ) (x : ℚ) :
    xs.foldl min x = x ∨ xs.foldl min x ∈ xs := by
  induction xs generalizing x with
  | nil => exact Or.inl rfl
  | cons z zs ih =>
    rcases ih (min x z) with h | h
    · rcases min_choice x z with hm | hm
      · exact Or.inl (by rw [List.foldl_cons, h, hm])
      · exact Or.inr (by rw [List.foldl_cons, h, hm]; exact List.mem_cons_self z zs)
    · exact Or.inr (List.mem_cons_of_mem z h)

theorem foldl_max_self_le (xs : List ℚ) (x : ℚ) : x ≤ xs.foldl max x := by
  induction xs generalizing x with
  | nil => exact le_refl x
  | cons y ys ih =>
    exact le_trans (le_max_left x y) (ih (max x y))

theorem foldl_max_of_mem_le (xs : List ℚ) (x y : ℚ) (hy : y ∈ xs) :
    y ≤ xs.foldl max x := by
  induction xs generalizing x with
  | nil => cases hy
  | cons z zs ih =>
    rcases List.mem_cons.mp hy with h | h
    · subst h
      exact le_trans (le_max_right x y) (foldl_max_self_le zs (max x y))
    · exact ih (max x z) h

theorem foldl_max_mem (xs : List ℚ) (x : ℚ) :
    xs.foldl max x = x ∨ xs.foldl max x ∈ xs := by
  induction xs generalizing x with
  | nil => exact Or.inl rfl
  | cons z zs ih =>
    rcases ih (max x z) with h | h
    · rcases max_choice x z with hm | hm
      · exact Or.inl (by rw [List.foldl_cons, h, hm])
      · exact Or.inr (by rw [List.foldl_cons, h, hm]; exact List.mem_cons_self z zs)
    · exact Or.inr (List.mem_cons_of_mem z h)

theorem py_min_ok (xs : List ℚ) (m : ℚ) (h : py_min xs = Except.ok m) :
    m ∈ xs ∧ is_lower_bound m xs = true := by
  cases xs with
  | nil => simp [py_min] at h
  | cons x rest =>
    simp only [py_min, Except.ok.injEq] at h
    subst h
    refine ⟨?_, ?_⟩
    · rcases foldl_min_mem rest x with h | h
      · rw [h]; exact List.mem_cons_self x rest
      · exact List.mem_cons_of_mem x h
    · rw [is_lower_bound, List.all_eq_true]
      intro y hy
      rcases List.mem_cons.mp hy with h | h
      · rw [h]; exact decide_eq_true (foldl_min_le_self rest x)
      · exact decide_eq_true (foldl_min_le_of_mem rest x y h)

theorem py_max_ok (xs : List ℚ) (m : ℚ) (h : py_max xs = Except.ok m) :
    m ∈ xs ∧ is_upper_bound m xs = true := by
  cases xs with
  | nil => simp [py_max] at h
  | cons x rest =>
    simp only [py_max, Except.ok.injEq] at h
    subst h
    refine ⟨?_, ?_⟩
    · rcases foldl_max_mem rest x with h | h
      · rw [h]; exact List.mem_cons_self x rest
      · exact List.mem_cons_of_mem x h
    · rw [is_upper_bound, List.all_eq_true]
      intro y hy
      rcases List.mem_cons.mp hy with h | h
      · rw [h]; exact decide_eq_true (foldl_max_self_le rest x)
      · exact decide_eq_true (foldl_max_of_mem_le rest x y h)

/-- Inversion: whatever a successful run of the builder returns. -/
theorem init_technology_block_ok {cfg : MConfig} {mdl : EHModel} {td : TecData}
    {b : TecBlock} (hb : (init_technology_block cfg mdl td).2 = Except.ok b) :
    ∃ smin smax,
      resolve_size_min td.perf.size_min = Except.ok smin ∧
      resolve_size_max td.perf.size_max = Except.ok smax ∧
      0 ≤ smin ∧ 0 ≤ smax ∧
      b = make_tec_block td mdl smin smax
            (if td.econ.CAPEX_model = 1 then [ConstraintTag.CAPEX_linear]
             else if td.econ.CAPEX_model = 2 then piecewise_capex
             else []) := by
  unfold init_technology_block at hb
  cases hmin : resolve_size_min td.perf.size_min with
  | error e => rw [hmin] at hb; simp at hb
  | ok smin =>
    cases hmax : resolve_size_max td.perf.size_max with
    | error e => rw [hmin, hmax] at hb; simp at hb
    | ok smax =>
      rw [hmin, hmax] at hb
      simp only at hb
      by_cases h1 : smin < 0
      · rw [if_pos h1] at hb; simp at hb
      rw [if_neg h1] at hb
      by_cases h2 : smax < 0
      · rw [if_pos h2] at hb; simp at hb
      rw [if_neg h2] at hb
      by_cases hc1 : td.econ.CAPEX_model = 1
      · rw [if_pos hc1] at hb
        simp only [Except.ok.injEq] at hb
        exact ⟨smin, smax, rfl, rfl, not_lt.mp h1, not_lt.mp h2,
          by rw [if_pos hc1, ← hb]⟩
      rw [if_neg hc1] at hb
      by_cases hc2 : td.econ.CAPEX_model = 2
      · rw [if_pos hc2] at hb
        simp only [Except.ok.injEq] at hb
        exact ⟨smin, smax, rfl, rfl, not_lt.mp h1, not_lt.mp h2,
          by rw [if_neg hc1, if_pos hc2, ← hb]⟩
      rw [if_neg hc2] at hb
      simp only [Except.ok.injEq] at hb
      exact ⟨smin, smax, rfl, rfl, not_lt.mp h1, not_lt.mp h2,
        by rw [if_neg hc1, if_neg hc2, ← hb]⟩

/-- Computation: the builder's successful result under explicit conditions. -/
theorem init_technology_block_eq_ok (cfg : MConfig) (mdl : EHModel) (td : TecData)
    (smin smax : ℚ)
    (hmin : resolve_size_min td.perf.size_min = Except.ok smin)
    (hmax : resolve_size_max td.perf.size_max = Except.ok smax)
    (h0 : 0 ≤ smin) (h0m : 0 ≤ smax) (hc : td.econ.CAPEX_model ≠ 2) :
    init_technology_block cfg mdl td =
      (cfg, Except.ok (make_tec_block td mdl smin smax
        (if td.econ.CAPEX_model = 1 then [ConstraintTag.CAPEX_linear] else []))) := by
  unfold init_technology_block
  rw [hmin, hmax]
  simp only
  rw [if_neg (not_lt.mpr h0), if_neg (not_lt.mpr h0m)]
  by_cases hc1 : td.econ.CAPEX_model = 1
  · rw [if_pos hc1, if_pos hc1]
  · rw [if_neg hc1, if_neg hc, if_neg hc1]

/-- Computation: the builder under the piecewise-linear cost model sets the
global flag and builds the block with the piecewise CAPEX component. -/
theorem init_technology_block_capex2 (cfg : MConfig) (mdl : EHModel) (td : TecData)
    (smin smax : ℚ)
    (hmin : resolve_size_min td.perf.size_min = Except.ok smin)
    (hmax : resolve_size_max td.perf.size_max = Except.ok smax)
    (h0 : 0 ≤ smin) (h0m : 0 ≤ smax) (hc : td.econ.CAPEX_model = 2) :
    init_technology_block cfg mdl td =
      ({ big_m_transformation_required := 1 },
       Except.ok (make_tec_block td mdl smin smax piecewise_capex)) := by
  unfold init_technology_block
  rw [hmin, hmax]
  simp only
  have hne1 : td.econ.CAPEX_model ≠ 1 := by rw [hc]; decide
  rw [if_neg (not_lt.mpr h0), if_neg (not_lt.mpr h0m), if_neg hne1, if_pos hc]

/-- The builder either leaves the global configuration untouched or sets
the big-M flag (it never writes anything else to it). -/
theorem init_technology_block_fst (cfg : MConfig) (mdl : EHModel) (td : TecData) :
    (init_technology_block cfg mdl td).1 = cfg ∨
    (init_technology_block cfg mdl td).1 =
      { big_m_transformation_required := 1 } := by
  unfold init_technology_block
  cases resolve_size_min td.perf.size_min with
  | error e => exact Or.inl rfl
  | ok smin =>
    cases resolve_size_max td.perf.size_max with
    | error e => exact Or.inl rfl
    | ok smax =>
      simp only
      by_cases h1 : smin < 0
      · rw [if_pos h1]
        exact Or.inl rfl
      rw [if_neg h1]
      by_cases h2 : smax < 0
      · rw [if_pos h2]
        exact Or.inl rfl
      rw [if_neg h2]
      by_cases hc1 : td.econ.CAPEX_model = 1
      · rw [if_pos hc1]
        exact Or.inl rfl
      rw [if_neg hc1]
      by_cases hc2 : td.econ.CAPEX_model = 2
      · rw [if_pos hc2]
        exact Or.inr rfl
      · rw [if_neg hc2]
        exact Or.inl rfl

/-- Once the big-M flag is set, no later technology construction unsets it. -/
theorem add_technologies_flag_stays (cfg : MConfig) (mdl : EHModel)
    (tds : List TecData) (h : cfg.big_m_transformation_required = 1) :
    (add_technologies cfg mdl tds).1.big_m_transformation_required = 1 := by
  induction tds generalizing cfg with
  | nil => exact h
  | cons td rest ih =>
    rw [add_technologies]
    cases hinit : init_technology_block cfg mdl td with
    | mk cfg2 res =>
      have hcfg2 : cfg2.big_m_transformation_required = 1 := by
        rcases init_technology_block_fst cfg mdl td with hf | hf
        · rw [hinit] at hf
          have hc2 : cfg2 = cfg := hf
          rw [hc2]
          exact h
        · rw [hinit] at hf
          have hc2 : cfg2 = { big_m_transformation_required := 1 } := hf
          rw [hc2]
      cases res with
      | error e => exact hcfg2
      | ok b =>
        simp only
        have ihh := ih cfg2 hcfg2
        cases hrec : add_technologies cfg2 mdl rest with
        | mk cfg3 res2 =>
          rw [hrec] at ihh
          cases res2 <;> exact ihh

theorem size_params_ok_elim (td : TecData) (h : size_params_ok td = true) :
    ∃ smin smax,
      resolve_size_min td.perf.size_min = Except.ok smin ∧
      resolve_size_max td.perf.size_max = Except.ok smax ∧
      0 ≤ smin ∧ 0 ≤ smax := by
  unfold size_params_ok at h
  cases hmin : resolve_size_min td.perf.size_min with
  | error e => rw [hmin] at h; simp at h
  | ok smin =>
    cases hmax : resolve_size_max td.perf.size_max with
    | error e => rw [hmin, hmax] at h; simp at h
    | ok smax =>
      rw [hmin, hmax] at h
      simp only [Bool.and_eq_true, decide_eq_true_eq] at h
      exact ⟨smin, smax, rfl, rfl, h.1, h.2⟩

theorem arch_dispatch_unknown (s : String) (hu : known_archetype s = false) :
    arch_dispatch s = [] := by
  unfold known_archetype at hu
  simp only [Bool.or_eq_false_iff, beq_eq_false_iff_ne, ne_eq] at hu
  obtain ⟨⟨⟨⟨h1, h2⟩, h3⟩, h4⟩, h5⟩ := hu
  unfold arch_dispatch
  rw [if_neg h1, if_neg h2, if_neg h3, if_neg h4, if_neg h5]

theorem arch_dispatch_no_capex_linear (s : String) :
    ConstraintTag.CAPEX_linear ∉ arch_dispatch s := by
  intro hmem
  unfold arch_dispatch at hmem
  split at hmem
  · simp at hmem
  · split at hmem
    · simp at hmem
    · split at hmem
      · simp at hmem
      · split at hmem
        · simp at hmem
        · split at hmem
          · simp at hmem
          · simp at hmem

theorem arch_dispatch_no_capex_piecewise (s : String) :
    ConstraintTag.CAPEX_piecewise ∉ arch_dispatch s := by
  intro hmem
  unfold arch_dispatch at hmem
  split at hmem
  · simp at hmem
  · split at hmem
    · simp at hmem
    · split at hmem
      · simp at hmem
      · split at hmem
        · simp at hmem
        · split at hmem
          · simp at hmem
          · simp at hmem

theorem add_technologies_flag (cfg : MConfig) (mdl : EHModel) (tds : List TecData)
    (hok : ∀ td ∈ tds, size_params_ok td = true)
    (h : any_piecewise tds = true) :
    (add_technologies cfg mdl tds).1.big_m_transformation_required = 1 := by
  induction tds generalizing cfg with
  | nil => simp [any_piecewise] at h
  | cons td rest ih =>
    obtain ⟨smin, smax, hmin, hmax, h0, h0m⟩ :=
      size_params_ok_elim td (hok td (List.mem_cons_self td rest))
    by_cases h2 : td.econ.CAPEX_model = 2
    · have hinit := init_technology_block_capex2 cfg mdl td smin smax hmin hmax h0 h0m h2
      simp only [add_technologies, hinit]
      have hstay :=
        add_technologies_flag_stays { big_m_transformation_required := 1 } mdl rest rfl
      cases hrec : add_technologies { big_m_transformation_required := 1 } mdl rest with
      | mk cfg3 res =>
        rw [hrec] at hstay
        cases res <;> exact hstay
    · have hrest : any_piecewise rest = true := by
        simp only [any_piecewise, List.any_cons, Bool.or_eq_true, beq_iff_eq] at h
        rcases h with h | h
        · exact absurd h h2
        · exact h
      have hinit := init_technology_block_eq_ok cfg mdl td smin smax hmin hmax h0 h0m h2
      simp only [add_technologies, hinit]
      have ihh := ih cfg (fun x hx => hok x (List.mem_cons_of_mem td hx)) hrest
      cases hrec : add_technologies cfg mdl rest with
      | mk cfg3 res =>
        rw [hrec] at ihh
        cases res <;> simpa using ihh

theorem add_technologies_linear (cfg : MConfig) (mdl : EHModel) (tds : List TecData)
    (hok : ∀ td ∈ tds, size_params_ok td = true)
    (h : all_linear tds = true) :
    (add_technologies cfg mdl tds).1 = cfg := by
  induction tds generalizing cfg with
  | nil => rfl
  | cons td rest ih =>
    obtain ⟨smin, smax, hmin, hmax, h0, h0m⟩ :=
      size_params_ok_elim td (hok td (List.mem_cons_self td rest))
    simp only [all_linear, List.all_cons, Bool.and_eq_true, beq_iff_eq] at h
    have h2 : td.econ.CAPEX_model ≠ 2 := by rw [h.1]; decide
    have hinit := init_technology_block_eq_ok cfg mdl td smin smax hmin hmax h0 h0m h2
    simp only [add_technologies, hinit]
    have ihh := ih cfg (fun x hx => hok x (List.mem_cons_of_mem td hx))
      (by simpa [all_linear] using h.2)
    cases hrec : add_technologies cfg mdl rest with
    | mk cfg3 res =>
      rw [hrec] at ihh
      cases res <;> simpa using ihh

theorem build_tec_sets_fail (allNodes : List String)
    (m : List (String × List String)) (rest : List String) (n : String)
    (hsub : ∀ x ∈ rest, x ∈ allNodes)
    (h : rest.find? (fun x => (dict_get m x).isNone) = some n) :
    build_tec_sets allNodes m rest = Except.error (SetError.keyError n) := by
  induction rest with
  | nil => simp at h
  | cons x xs ih =>
    by_cases hx : (dict_get m x).isNone = true
    · have hfind : List.find? (fun y => (dict_get m y).isNone) (x :: xs) = some x :=
        List.find?_cons_of_pos xs hx
      rw [hfind] at h
      injection h with h
      subst h
      have hl : dict_get m x = none := Option.isNone_iff_eq_none.mp hx
      simp [build_tec_sets, tec_node, if_pos (hsub x (List.mem_cons_self x xs)), hl]
    · have hfind : List.find? (fun y => (dict_get m y).isNone) (x :: xs)
          = List.find? (fun y => (dict_get m y).isNone) xs :=
        List.find?_cons_of_neg xs hx
      rw [hfind] at h
      have hxs := ih (fun y hy => hsub y (List.mem_cons_of_mem x hy)) h
      have hl : ∃ tecs, dict_get m x = some tecs := by
        cases hdg : dict_get m x with
        | none => exact absurd (congrArg Option.isNone hdg) hx
        | some tecs => exact ⟨tecs, rfl⟩
      obtain ⟨tecs, hl⟩ := hl
      simp [build_tec_sets, tec_node, if_pos (hsub x (List.mem_cons_self x xs)), hl, hxs]

/-! ## Claims -/

/-- C1, counterexample: for the non-RES technology `td_c1`, declared with
`size_min = 2`, the builder gives the input variable the lower bound 2 — not
0 as the claim states. -/
theorem c1_counterexample :
    ((init_technology_block cfg0 mdl2 td_c1).2.toOption.bind
        TecBlock.var_input).map VarBounds.lb = some 2 ∧
    (2 : ℚ) ≠ 0 :=
  ⟨rfl, by decide⟩

/-- C1 (amended): for every technology that is not of archetype RES and
whose block builds, the input variable's bounds are
`(para_size_min, para_size_max)`: the lower bound is the resolved
`size_min` (0 only when `size_min = 0`), the upper bound the resolved size
bound `size_max`. -/
theorem c1_input_bounds (cfg : MConfig) (mdl : EHModel) (td : TecData)
    (b : TecBlock) (hb : (init_technology_block cfg mdl td).2 = Except.ok b)
    (hres : td.perf.tec_type ≠ "RES") :
    b.var_input = some ⟨b.para_size_min, b.para_size_max⟩ := by
  obtain ⟨smin, smax, _, _, _, _, hbeq⟩ := init_technology_block_ok hb
  subst hbeq
  simp [make_tec_block, hres]

/-- C1 witness: the amended statement evaluated on `td_c1`. -/
theorem c1_input_bounds_witness :
    c1_block.var_input = some ⟨c1_block.para_size_min, c1_block.para_size_max⟩ :=
  c1_input_bounds cfg0 mdl2 td_c1 c1_block (by rfl) (by decide)

/-- C2, counterexample: `td_c2` declares `size_min` as the collection `[5]`
and `size_max` as the collection `[3]`; the builder resolves them to 5 and 3
and accepts them, so the claimed `resolved_min ≤ resolved_max` fails. -/
theorem c2_counterexample :
    (init_technology_block cfg0 mdl2 td_c2).2.toOption.map
        (fun b => (b.para_size_min, b.para_size_max)) = some (5, 3) ∧
    ¬ ((5 : ℚ) ≤ 3) :=
  ⟨rfl, by decide⟩

/-- C2 (amended): the builder resolves a scalar size bound as-is and a
collection to its minimum (for `size_min`) / maximum (for `size_max`); the
further claim `resolved_min ≤ resolved_max` is not guaranteed — nothing
relates the two independently resolved values. -/
theorem c2_size_resolution (cfg : MConfig) (mdl : EHModel) (td : TecData)
    (b : TecBlock) (hb : (init_technology_block cfg mdl td).2 = Except.ok b) :
    resolve_size_min td.perf.size_min = Except.ok b.para_size_min ∧
    resolve_size_max td.perf.size_max = Except.ok b.para_size_max ∧
    (match td.perf.size_min with
     | SizeBound.scalar x => b.para_size_min = x
     | SizeBound.collection xs =>
         b.para_size_min ∈ xs ∧ is_lower_bound b.para_size_min xs = true) ∧
    (match td.perf.size_max with
     | SizeBound.scalar x => b.para_size_max = x
     | SizeBound.collection xs =>
         b.para_size_max ∈ xs ∧ is_upper_bound b.para_size_max xs = true) := by
  obtain ⟨smin, smax, hmin, hmax, _, _, hbeq⟩ := init_technology_block_ok hb
  subst hbeq
  refine ⟨hmin, hmax, ?_, ?_⟩
  · cases hsb : td.perf.size_min with
    | scalar x =>
      rw [hsb] at hmin
      simp only [resolve_size_min, Except.ok.injEq] at hmin
      simp [make_tec_block, hmin]
    | collection xs =>
      rw [hsb] at hmin
      simp only [resolve_size_min] at hmin
      simpa [make_tec_block] using py_min_ok xs smin hmin
  · cases hsb : td.perf.size_max with
    | scalar x =>
      rw [hsb] at hmax
      simp only [resolve_size_max, Except.ok.injEq] at hmax
      simp [make_tec_block, hmax]
    | collection xs =>
      rw [hsb] at hmax
      simp only [resolve_size_max] at hmax
      simpa [make_tec_block] using py_max_ok xs smax hmax

/-- C2 witness: the amended statement evaluated on `td_c2w`, whose bound
collections `[4, 2, 7]` and `[1, 9, 3]` resolve to 2 and 9. -/
theorem c2_size_resolution_witness :
    resolve_size_min td_c2w.perf.size_min = Except.ok c2w_block.para_size_min ∧
    resolve_size_max td_c2w.perf.size_max = Except.ok c2w_block.para_size_max ∧
    (c2w_block.para_size_min ∈ [(4 : ℚ), 2, 7] ∧
      is_lower_bound c2w_block.para_size_min [4, 2, 7] = true) ∧
    (c2w_block.para_size_max ∈ [(1 : ℚ), 9, 3] ∧
      is_upper_bound c2w_block.para_size_max [1, 9, 3] = true) :=
  c2_size_resolution cfg0 mdl2 td_c2w c2w_block (by rfl)

/-- C3, counterexample: `td_c3` selects cost model 3; the builder attaches
neither the linear nor the piecewise CAPEX constraint, refuting "in every
case exactly one of these two CAPEX constraint forms is present". -/
theorem c3_counterexample :
    (init_technology_block cfg0 mdl2 td_c3).2.toOption.map
        (fun b => (b.constraints.count ConstraintTag.CAPEX_linear,
                   b.constraints.count ConstraintTag.CAPEX_piecewise))
      = some (0, 0) := by
  rfl

/-- C3 (amended): on every successfully built block, exactly one CAPEX
constraint form is present iff `capex_model` is 1 or 2: for `capex_model ==
1` the linear constraint `CAPEX = size × unit_CAPEX`, exactly once and
without the piecewise form; for `capex_model == 2` the piecewise component
(its breakpoints an externally supplied dependency, see `piecewise_capex`),
exactly once and without the linear form; for any other selector no CAPEX
constraint is present at all — the `if`/`elif` chain has no `else`. -/
theorem c3_capex_forms (cfg : MConfig) (mdl : EHModel) (td : TecData)
    (b : TecBlock) (hb : (init_technology_block cfg mdl td).2 = Except.ok b)
    (a : TecAssign) :
    (td.econ.CAPEX_model = 1 →
      b.constraints.count ConstraintTag.CAPEX_linear = 1 ∧
      b.constraints.count ConstraintTag.CAPEX_piecewise = 0 ∧
      (const_CAPEX_linear b a ↔ a.var_CAPEX = a.var_size * b.para_unit_CAPEX)) ∧
    (td.econ.CAPEX_model = 2 →
      b.constraints.count ConstraintTag.CAPEX_piecewise = 1 ∧
      b.constraints.count ConstraintTag.CAPEX_linear = 0) ∧
    (td.econ.CAPEX_model ≠ 1 → td.econ.CAPEX_model ≠ 2 →
      b.constraints.count ConstraintTag.CAPEX_linear = 0 ∧
      b.constraints.count ConstraintTag.CAPEX_piecewise = 0) := by
  obtain ⟨smin, smax, _, _, _, _, hbeq⟩ := init_technology_block_ok hb
  subst hbeq
  have hlin0 :
      (arch_dispatch td.perf.tec_type).count ConstraintTag.CAPEX_linear = 0 :=
    List.count_eq_zero.mpr (arch_dispatch_no_capex_linear td.perf.tec_type)
  have hpw0 :
      (arch_dispatch td.perf.tec_type).count ConstraintTag.CAPEX_piecewise = 0 :=
    List.count_eq_zero.mpr (arch_dispatch_no_capex_piecewise td.perf.tec_type)
  refine ⟨?_, ?_, ?_⟩
  · intro h1
    refine ⟨?_, ?_, ?_⟩
    · simp only [make_tec_block, if_pos h1, List.count_append, hlin0]
      decide
    · simp only [make_tec_block, if_pos h1, List.count_append, hpw0]
      decide
    · unfold const_CAPEX_linear
      exact eq_comm
  · intro h2
    have h1 : td.econ.CAPEX_model ≠ 1 := by rw [h2]; decide
    refine ⟨?_, ?_⟩
    · simp only [make_tec_block, if_neg h1, if_pos h2, piecewise_capex,
        List.count_append, hpw0]
      decide
    · simp only [make_tec_block, if_neg h1, if_pos h2, piecewise_capex,
        List.count_append, hlin0]
      decide
  · intro h1 h2
    refine ⟨?_, ?_⟩
    · simp only [make_tec_block, if_neg h1, if_neg h2, List.count_append, hlin0]
      decide
    · simp only [make_tec_block, if_neg h1, if_neg h2, List.count_append, hpw0]
      decide

/-- C3 witness: the amended statement evaluated on `td_c3w` (linear cost
model). -/
theorem c3_capex_forms_witness :
    (td_c3w.econ.CAPEX_model = 1 →
      c3w_block.constraints.count ConstraintTag.CAPEX_linear = 1 ∧
      c3w_block.constraints.count ConstraintTag.CAPEX_piecewise = 0 ∧
      (const_CAPEX_linear c3w_block a_c4 ↔
        a_c4.var_CAPEX = a_c4.var_size * c3w_block.para_unit_CAPEX)) ∧
    (td_c3w.econ.CAPEX_model = 2 →
      c3w_block.constraints.count ConstraintTag.CAPEX_piecewise = 1 ∧
      c3w_block.constraints.count ConstraintTag.CAPEX_linear = 0) ∧
    (td_c3w.econ.CAPEX_model ≠ 1 → td_c3w.econ.CAPEX_model ≠ 2 →
      c3w_block.constraints.count ConstraintTag.CAPEX_linear = 0 ∧
      c3w_block.constraints.count ConstraintTag.CAPEX_piecewise = 0) :=
  c3_capex_forms cfg0 mdl2 td_c3w c3w_block (by rfl) a_c4

/-- C4: for every technology whose block builds, every time step of the
horizon, and every assignment, the variable-OPEX constraint is attached and
its emitted equation is exactly the spec's
`OPEX_variable[t] = (sum of output[t, c] over the declared output carriers)
× variable_OPEX_rate`. -/
theorem c4_opex_variable_constraint (cfg : MConfig) (mdl : EHModel)
    (td : TecData) (b : TecBlock)
    (hb : (init_technology_block cfg mdl td).2 = Except.ok b)
    (t : ℕ) (ht1 : 1 ≤ t) (ht2 : t ≤ mdl.set_t) (a : TecAssign) :
    ConstraintTag.OPEX_variable ∈ b.constraints ∧
    (init_OPEX_variable b a t ↔ spec_OPEX_variable_eq b a t) := by
  obtain ⟨smin, smax, _, _, _, _, hbeq⟩ := init_technology_block_ok hb
  subst hbeq
  constructor
  · simp [make_tec_block]
  · unfold init_OPEX_variable spec_OPEX_variable_eq
    exact eq_comm

/-- C4 witness: evaluated on `td_c4` at time step 1. -/
theorem c4_opex_variable_constraint_witness :
    ConstraintTag.OPEX_variable ∈ c4w_block.constraints ∧
    (init_OPEX_variable c4w_block a_c4 1 ↔ spec_OPEX_variable_eq c4w_block a_c4 1) :=
  c4_opex_variable_constraint cfg0 mdl2 td_c4 c4w_block (by rfl) 1
    (by decide) (by decide) a_c4

/-- C5, counterexample: node "B" is declared in the technology mapping but
absent from the global node set `["A"]`; set construction succeeds silently
instead of failing fast. -/
theorem c5_counterexample :
    build_set_technologies ["A"] [("A", ["t1"]), ("B", ["t2"])]
      = Except.ok [("A", some ["t1"])] := by
  rfl

/-- C5 (amended): the fail-fast error fires in the converse direction: when
a node of the global node set has no entry in the technology mapping,
construction aborts with a `KeyError` identifying that node; a mapping
entry whose node is absent from the global node set is silently ignored. -/
theorem c5_fail_fast (nodes : List String) (m : List (String × List String))
    (n : String) (h : first_missing nodes m = some n) :
    n ∈ nodes ∧ dict_get m n = none ∧
    build_set_technologies nodes m = Except.error (SetError.keyError n) := by
  have hmem := List.mem_of_find?_eq_some h
  have hp := List.find?_some h
  simp only [Option.isNone_iff_eq_none] at hp
  exact ⟨hmem, hp, build_tec_sets_fail nodes m nodes n (fun x hx => hx) h⟩

/-- C5 witness: global nodes `["A", "B"]`, mapping only for "A". -/
theorem c5_fail_fast_witness :
    "B" ∈ ["A", "B"] ∧ dict_get [("A", ["t1"])] "B" = none ∧
    build_set_technologies ["A", "B"] [("A", ["t1"])]
      = Except.error (SetError.keyError "B") :=
  c5_fail_fast ["A", "B"] [("A", ["t1"])] "B" (by rfl)

/-- C6: over technologies whose size parameters resolve, a hub containing a
piecewise-cost technology ends construction with the global big-M flag set
to 1, while a hub whose technologies all use the linear cost model leaves
the global configuration exactly as it started. -/
theorem c6_big_m_flag (cfg : MConfig) (mdl : EHModel) (tds : List TecData)
    (hok : ∀ td ∈ tds, size_params_ok td = true) :
    (any_piecewise tds = true →
      (add_technologies cfg mdl tds).1.big_m_transformation_required = 1) ∧
    (all_linear tds = true → (add_technologies cfg mdl tds).1 = cfg) :=
  ⟨fun h => add_technologies_flag cfg mdl tds hok h,
   fun h => add_technologies_linear cfg mdl tds hok h⟩

/-- C6 witness: a hub with one piecewise-cost and one linear-cost
technology. -/
theorem c6_big_m_flag_witness :
    (any_piecewise [td_c6a, td_c6b] = true →
      (add_technologies cfg0 mdl2 [td_c6a, td_c6b]).1.big_m_transformation_required = 1) ∧
    (all_linear [td_c6a, td_c6b] = true →
      (add_technologies cfg0 mdl2 [td_c6a, td_c6b]).1 = cfg0) :=
  c6_big_m_flag cfg0 mdl2 [td_c6a, td_c6b] (by decide)

/-- C7: on every successfully built block, input/output variable components
exist exactly for the declared carriers (and time steps of the horizon),
and a RES-archetype technology has no input variable at all. -/
theorem c7_sparse_variables (cfg : MConfig) (mdl : EHModel) (td : TecData)
    (b : TecBlock) (hb : (init_technology_block cfg mdl td).2 = Except.ok b)
    (t : ℕ) (car : String) :
    (input_var_exists b t car ↔
      td.perf.tec_type ≠ "RES" ∧ 1 ≤ t ∧ t ≤ mdl.set_t ∧
        car ∈ td.perf.input_carrier) ∧
    (output_var_exists b t car ↔
      1 ≤ t ∧ t ≤ mdl.set_t ∧ car ∈ td.perf.output_carrier) ∧
    (td.perf.tec_type = "RES" → b.var_input = none) := by
  obtain ⟨smin, smax, _, _, _, _, hbeq⟩ := init_technology_block_ok hb
  subst hbeq
  unfold input_var_exists output_var_exists
  by_cases hres : td.perf.tec_type = "RES" <;>
    simp [make_tec_block, hres]

/-- C7 witness: evaluated on `td_c7` at `(t, car) = (1, "gas")`. -/
theorem c7_sparse_variables_witness :
    (input_var_exists c7w_block 1 "gas" ↔
      td_c7.perf.tec_type ≠ "RES" ∧ 1 ≤ 1 ∧ 1 ≤ mdl2.set_t ∧
        "gas" ∈ td_c7.perf.input_carrier) ∧
    (output_var_exists c7w_block 1 "gas" ↔
      1 ≤ 1 ∧ 1 ≤ mdl2.set_t ∧ "gas" ∈ td_c7.perf.output_carrier) ∧
    (td_c7.perf.tec_type = "RES" → c7w_block.var_input = none) :=
  c7_sparse_variables cfg0 mdl2 td_c7 c7w_block (by rfl) 1 "gas"

/-- C8: a technology whose archetype tag matches none of the known
archetypes builds without any error or warning, leaves the global
configuration untouched, and its block carries the common parameters and
variables with the cost constraints only — no archetype-specific
constraint. -/
theorem c8_unknown_archetype (cfg : MConfig) (mdl : EHModel) (td : TecData)
    (smin smax : ℚ)
    (hmin : resolve_size_min td.perf.size_min = Except.ok smin)
    (hmax : resolve_size_max td.perf.size_max = Except.ok smax)
    (h0 : 0 ≤ smin) (h0m : 0 ≤ smax)
    (h1 : td.econ.CAPEX_model = 1)
    (hu : known_archetype td.perf.tec_type = false) :
    init_technology_block cfg mdl td =
      (cfg, Except.ok (make_tec_block td mdl smin smax [ConstraintTag.CAPEX_linear])) ∧
    (make_tec_block td mdl smin smax [ConstraintTag.CAPEX_linear]).constraints =
      [ConstraintTag.CAPEX_linear, ConstraintTag.OPEX_fixed,
       ConstraintTag.OPEX_variable] := by
  have h2 : td.econ.CAPEX_model ≠ 2 := by rw [h1]; decide
  constructor
  · rw [init_technology_block_eq_ok cfg mdl td smin smax hmin hmax h0 h0m h2,
      if_pos h1]
  · simp [make_tec_block, arch_dispatch_unknown td.perf.tec_type hu]

/-- C8 witness: evaluated on `td_c8` (archetype tag "FUSION"). -/
theorem c8_unknown_archetype_witness :
    init_technology_block cfg0 mdl2 td_c8 =
      (cfg0, Except.ok (make_tec_block td_c8 mdl2 0 10 [ConstraintTag.CAPEX_linear])) ∧
    (make_tec_block td_c8 mdl2 0 10 [ConstraintTag.CAPEX_linear]).constraints =
      [ConstraintTag.CAPEX_linear, ConstraintTag.OPEX_fixed,
       ConstraintTag.OPEX_variable] :=
  c8_unknown_archetype cfg0 mdl2 td_c8 0 10 (by rfl) (by rfl) (by decide)
    (by decide) (by rfl) (by decide)

/-- C9: at the failing input `td_c9` — scalar `size_min = 5 > 3 = size_max`
— the builder performs no build-time validation and reports no error: it
returns a block whose size parameters (and hence size/input variable
bounds) cross, deferring the inconsistency to solve time. -/
theorem c9_no_validation :
    (init_technology_block cfg0 mdl2 td_c9).2.toOption.map
        (fun b => (b.para_size_min, b.para_size_max)) = some (5, 3) ∧
    ¬ ((5 : ℚ) ≤ 3) :=
  ⟨rfl, by decide⟩

end EnergyHub
